import Mathlib

/-!
Shallow embedding of the QETL SDK job lifecycle core, translated from
src/qetl-sdk/src/qetl_sdk/{job.py, local_runner.py, exceptions.py}.

Modelling conventions:
* Python floats only ever carry the discrete progress values
  0.0, 10.0, ..., 100.0 here, so progress is embedded as `Option Rat`
  (the value `None` set by the failure path becomes `none`).
* Timestamps (`created_at` / `updated_at`, datetime.now) are wall-clock
  inputs and are omitted: no claim below depends on their values.
* The in-memory job table `self.jobs` (a Python dict, insertion ordered,
  with unique string keys) is embedded as an association list.
* Exceptions are embedded as an error type `QErr` mirroring the class
  hierarchy of exceptions.py (every constructor is a QETLError subclass);
  fallible operations return `Except QErr`.
* Opaque payloads (pipeline outputs, metrics values) are abstracted to
  strings; only their presence and identity matter to the claims.
-/

/-- JobState from job.py: closed enumeration of job execution states. -/
inductive JobState where
  | submitted
  | validating
  | queued
  | initializing
  | running
  | completing
  | completed
  | failed
  | cancelled
deriving DecidableEq, Repr

/-- The string value of each state (the Enum value in job.py). -/
def JobState.value : JobState → String
  | .submitted => "submitted"
  | .validating => "validating"
  | .queued => "queued"
  | .initializing => "initializing"
  | .running => "running"
  | .completing => "completing"
  | .completed => "completed"
  | .failed => "failed"
  | .cancelled => "cancelled"

/-- JobStatus.is_terminal from job.py: state in {COMPLETED, FAILED, CANCELLED}. -/
def JobState.isTerminal : JobState → Bool
  | .completed => true
  | .failed => true
  | .cancelled => true
  | _ => false

/-- JobStatus.is_successful from job.py: state == COMPLETED. -/
def JobState.isSuccessful : JobState → Bool
  | .completed => true
  | _ => false

/-- Error values mirroring exceptions.py. Every constructor corresponds to a
class deriving from QETLError; `qetlError` is the base class itself
(raised with error_code = None). -/
inductive QErr where
  | qetlError (message : String)
  | validationError (message : String) (validationErrors : List String)
  | jobExecutionError (message : String)
  | timeoutError (message : String)
  | configurationError (message : String)
  | jobNotFoundError (jobId : String)
deriving DecidableEq, Repr

/-- Whether the error is the ValidationError class. -/
def QErr.isValidationError : QErr → Bool
  | .validationError _ _ => true
  | _ => false

/-- Whether the error is the dedicated JobNotFoundError class of
exceptions.py (error_code JOB_NOT_FOUND). -/
def QErr.isJobNotFoundError : QErr → Bool
  | .jobNotFoundError _ => true
  | _ => false

/-- The message text of an error (QETLError.message). -/
def QErr.message : QErr → String
  | .qetlError m => m
  | .validationError m _ => m
  | .jobExecutionError m => m
  | .timeoutError m => m
  | .configurationError m => m
  | .jobNotFoundError jid => "Job not found: " ++ jid

/-- JobResults from job.py: outputs, execution time, logs, metrics
(payload values abstracted to strings; metadata kwargs omitted). -/
structure JobResults where
  jobId : String
  outputs : List (String × String)
  executionTime : Rat
  logs : List String
  metrics : List (String × String)
deriving DecidableEq, Repr

/-- Stored error information, as written by the except-branch of
LocalRunner executing a job: the exception type name and its message
(the ISO timestamp field is omitted, see header). -/
structure ErrInfo where
  etype : String
  emessage : String
deriving DecidableEq, Repr

/-- One job_data dict of LocalRunner.jobs, holding the fields the claims
depend on (yaml_path, kwargs and the two timestamps are omitted). -/
structure JobRecord where
  state : JobState
  progress : Option Rat
  message : String
  results : Option JobResults := none
  error : Option ErrInfo := none
deriving DecidableEq, Repr

/-- The in-memory job store: LocalRunner.jobs, a Python dict from job id to
job_data, iterated in insertion order, keys unique. -/
abbrev Store := List (String × JobRecord)

/-- Dict lookup: jobs[job_id] when present. -/
def findJob : Store → String → Option JobRecord
  | [], _ => none
  | (k, r) :: rest, jid => if k = jid then some r else findJob rest jid

/-- Dict in-place mutation of one entry: rewrites the first (hence, keys
being unique, the only) record stored under the id, keeping its position. -/
def updateJob : Store → String → (JobRecord → JobRecord) → Store
  | [], _, _ => []
  | (k, r) :: rest, jid, f =>
    if k = jid then (k, f r) :: rest else (k, r) :: updateJob rest jid f

/-- LocalRunner updating a job status: under the lock, if the id is present,
overwrite the state, progress and message fields (updated_at omitted);
silently a no-op if the id is absent. Translated from local_runner.py
lines 282-297. -/
def updateJobStatus (st : Store) (jid : String) (state : JobState)
    (progress : Option Rat) (message : String) : Store :=
  if (findJob st jid).isSome then
    updateJob st jid (fun r => { r with state := state, progress := progress, message := message })
  else st

/-- LocalRunner.cancel_job: unknown id returns false; terminal state returns
false; otherwise record state CANCELLED with the cancellation message and
return true. Translated from local_runner.py lines 329-347. The pair is
the store after the call and the returned Bool. -/
def cancelJob (st : Store) (jid : String) : Store × Bool :=
  match findJob st jid with
  | none => (st, false)
  | some r =>
    if r.state.isTerminal then (st, false)
    else
      (updateJob st jid
        (fun r => { r with state := JobState.cancelled, message := "Job cancelled by user" }),
       true)

/-- Point-in-time status snapshot handed out by the backend (class JobStatus
of job.py, timestamps omitted). -/
structure JobStatus where
  jobId : String
  state : JobState
  progress : Option Rat
  message : String
deriving DecidableEq, Repr

/-- JobStatus.is_terminal on a snapshot. -/
def JobStatus.isTerminal (s : JobStatus) : Bool := s.state.isTerminal

/-- JobStatus.is_successful on a snapshot. -/
def JobStatus.isSuccessful (s : JobStatus) : Bool := s.state.isSuccessful

/-- Snapshot construction from a stored record, as done by
LocalRunner.get_job_status and LocalRunner.list_jobs. -/
def mkJobStatus (jid : String) (r : JobRecord) : JobStatus :=
  { jobId := jid, state := r.state, progress := r.progress, message := r.message }

/-- LocalRunner.get_job_status: unknown id raises QETLError with a Job not
found message; otherwise a snapshot of the record. Translated from
local_runner.py lines 299-314. -/
def getJobStatus (st : Store) (jid : String) : Except QErr JobStatus :=
  match findJob st jid with
  | none => .error (.qetlError ("Job not found: " ++ jid))
  | some r => .ok (mkJobStatus jid r)

/-- LocalRunner.get_job_results: unknown id raises QETLError with a Job not
found message; missing results raise QETLError; otherwise the stored
JobResults. Translated from local_runner.py lines 316-327. -/
def getJobResults (st : Store) (jid : String) : Except QErr JobResults :=
  match findJob st jid with
  | none => .error (.qetlError ("Job not found: " ++ jid))
  | some r =>
    match r.results with
    | none => .error (.qetlError ("Results not available for job " ++ jid))
    | some res => .ok res

/-- LocalRunner.get_job_logs: unknown id raises QETLError with a Job not
found message; with results stored returns their logs, otherwise the last
status message as a one-line log. Translated from local_runner.py lines
384-396. -/
def getJobLogs (st : Store) (jid : String) : Except QErr (List String) :=
  match findJob st jid with
  | none => .error (.qetlError ("Job not found: " ++ jid))
  | some r =>
    match r.results with
    | some res => .ok res.logs
    | none => .ok [r.message]

/-- A loaded YAML configuration, abstracted to the list of its top-level
field names (LocalRunner.validate_yaml inspects nothing else). -/
abbrev Config := List String

/-- The required top-level fields checked by LocalRunner.validate_yaml. -/
def requiredFields : List String := ["pipeline_name", "input_sources", "transformations"]

/-- The error strings accumulated by the validation loop, in field order. -/
def missingFieldErrors (cfg : Config) : List String :=
  (requiredFields.filter (fun f => !(List.contains cfg f))).map
    (fun f => "Missing required field: " ++ f)

/-- LocalRunner.validate_yaml on an already-loaded configuration dict:
raises ValidationError listing the missing required fields when any is
absent, otherwise succeeds. Translated from local_runner.py lines 437-458
(the yaml.YAMLError and FileNotFoundError branches concern file loading,
which is outside this in-memory model). -/
def validateYaml (cfg : Config) : Except QErr Unit :=
  if missingFieldErrors cfg = [] then .ok ()
  else .error (.validationError "YAML validation failed" (missingFieldErrors cfg))

/-- LocalRunner.submit_job: validate the YAML first and re-raise a
ValidationError without touching the store; only on success create the
SUBMITTED record (progress 0, message Job submitted), insert it (dict
insertion appends, the uuid id being fresh), and start the background
execution thread. Translated from local_runner.py lines 82-131.
The triple is (store after the call, id of the execution thread spawned
if any, raised error or returned initial snapshot). -/
def submitJob (st : Store) (cfg : Config) (jid : String) :
    Store × Option String × Except QErr JobStatus :=
  match validateYaml cfg with
  | .error e => (st, none, .error e)
  | .ok _ =>
    let rec0 : JobRecord := { state := .submitted, progress := some 0, message := "Job submitted" }
    (st ++ [(jid, rec0)], some jid,
     .ok { jobId := jid, state := .submitted, progress := some 0, message := "Job submitted" })

/-- A Python exception as observed by the except-branch of _execute_job:
the class name (type(e).__name__) and the str(e) text. -/
structure ExcInfo where
  etype : String
  emessage : String
deriving DecidableEq, Repr

/-- The raw outcome dict of LocalRunner._run_yaml_pipeline on success:
outputs, logs and metrics parsed from the subprocess (payloads abstracted
to strings). -/
structure PipeResult where
  outputs : List (String × String)
  logs : List String
  metrics : List (String × String)
deriving DecidableEq, Repr

/-- One write that _execute_job performs on the store. -/
inductive StoreOp where
  | setStatus (state : JobState) (progress : Option Rat) (message : String)
  | setResults (r : JobResults)
  | setError (e : ErrInfo)
deriving DecidableEq, Repr

/-- The two writes of the except-branch of _execute_job: status FAILED with
progress None and message str(e), then the stored error dict. -/
def failOps (e : ExcInfo) : List StoreOp :=
  [.setStatus .failed none e.emessage, .setError { etype := e.etype, emessage := e.emessage }]

/-- The JobResults object built by _execute_job from the pipeline outcome. -/
def mkJobResults (jid : String) (pr : PipeResult) (t : Rat) : JobResults :=
  { jobId := jid, outputs := pr.outputs, executionTime := t,
    logs := pr.logs, metrics := pr.metrics }

/-- LocalRunner._execute_job as the ordered list of store writes it performs,
translated from local_runner.py lines 133-192. `load` is the outcome of
opening and yaml-loading the file; `run` the outcome of
_run_yaml_pipeline (which wraps every failure into JobExecutionError);
`t` the measured wall-clock execution time. Any exception jumps to the
except-branch, which records FAILED with progress None and then the error
information. -/
def executeJobOps (jid : String) (t : Rat)
    (load : Except ExcInfo Unit) (run : Except ExcInfo PipeResult) : List StoreOp :=
  .setStatus .validating (some 10) "Validating configuration" ::
  match load with
  | .error e => failOps e
  | .ok _ =>
    .setStatus .queued (some 20) "Job queued for execution" ::
    .setStatus .initializing (some 30) "Initializing execution environment" ::
    .setStatus .running (some 40) "Executing pipeline" ::
    match run with
    | .error e => failOps e
    | .ok pr =>
      [.setStatus .completing (some 90) "Processing results",
       .setResults (mkJobResults jid pr t),
       .setStatus .completed (some 100) "Job completed successfully"]

/-- Apply one write to the store. setStatus goes through the same code path
as updateJobStatus; setResults and setError assign one key of the job
dict in place (in the source an absent id would raise KeyError there; all
claims below are stated for ids present in the store, where the two
readings agree). -/
def applyOp (st : Store) (jid : String) : StoreOp → Store
  | .setStatus s p m => updateJobStatus st jid s p m
  | .setResults r => updateJob st jid (fun rec0 => { rec0 with results := some r })
  | .setError e => updateJob st jid (fun rec0 => { rec0 with error := some e })

/-- Apply the writes of an execution in order. -/
def applyOps (st : Store) (jid : String) (ops : List StoreOp) : Store :=
  ops.foldl (fun s op => applyOp s jid op) st

/-- The (state, progress) content of a status write, for stating which
transition sequence an execution records. -/
def opStatusWrite : StoreOp → Option (JobState × Option Rat)
  | .setStatus s p _ => some (s, p)
  | _ => none

/-- The Python truthiness filter of list_jobs: entries are skipped exactly
when a non-empty status string is given and differs from the state value. -/
def matchesFilter (filter : Option String) (r : JobRecord) : Bool :=
  match filter with
  | none => true
  | some f => if f = "" then true else r.state.value = f

/-- The iteration loop of LocalRunner.list_jobs (lines 349-377): walk the
dict in insertion order, skip filtered-out entries, append a snapshot,
and break once the accumulated length reaches the limit (the check sits
after the append). The accumulator is kept reversed. -/
def listJobsLoop (filter : Option String) (limit : Int) :
    List (String × JobRecord) → List JobStatus → List JobStatus
  | [], acc => acc.reverse
  | (jid, r) :: rest, acc =>
    if matchesFilter filter r then
      let acc' := mkJobStatus jid r :: acc
      if (acc'.length : Int) ≥ limit then acc'.reverse
      else listJobsLoop filter limit rest acc'
    else listJobsLoop filter limit rest acc

/-- LocalRunner.list_jobs: snapshots of the stored jobs, insertion order,
optional state filter, capped by the break in the loop. -/
def listJobs (st : Store) (filter : Option String) (limit : Int) : List JobStatus :=
  listJobsLoop filter limit st []

/-- Python str(e) on a QErr value, following QETLError.__str__: the message,
prefixed with the bracketed error code when one is set (the base
QETLError is raised with error_code None throughout local_runner.py). -/
def QErr.str : QErr → String
  | .qetlError m => m
  | .validationError m _ => "[VALIDATION_ERROR] " ++ m
  | .jobExecutionError m => "[JOB_EXECUTION_ERROR] " ++ m
  | .timeoutError m => "[TIMEOUT_ERROR] " ++ m
  | .configurationError m => "[CONFIG_ERROR] " ++ m
  | .jobNotFoundError jid => "[JOB_NOT_FOUND] Job not found: " ++ jid

/-- The caller-facing class Job of job.py: it holds only the id, the cached
status snapshot, the cached results and the registered callbacks; every
fresh read goes to the backend store. Callbacks are identified by
numbers; what matters to the claims is which callback is invoked when
and with which payload, recorded as CbEvent values. -/
structure Job where
  jobId : String
  cachedStatus : Option JobStatus := none
  results : Option JobResults := none
  completionCallbacks : List Nat := []
  statusCallbacks : List Nat := []
deriving DecidableEq, Repr

/-- One callback invocation performed by the handle: a status callback with
the fresh snapshot, or a completion callback with its payload
(JobResults on success, None otherwise). -/
inductive CbEvent where
  | statusCb (cb : Nat) (s : JobStatus)
  | completionCb (cb : Nat) (payload : Option JobResults)
deriving DecidableEq, Repr

/-- Job._trigger_completion_callbacks (job.py lines 329-348): nothing with no
callbacks registered; otherwise compute results = self.get_results() when
the status is successful (the wait loop exits at once, the state being
terminal at every call site; a fetch failure drops to the except-branch
that hands every callback None) and None when not successful, then invoke
every registered callback in list order with that payload. At both call
sites the snapshot has just been placed in the cache, so the read of
self.status inside is the cached one; the none branch below is therefore
never reached from this development. -/
def triggerCompletion (st : Store) (h : Job) : Job × List CbEvent :=
  if h.completionCallbacks.isEmpty then (h, [])
  else
    match h.cachedStatus with
    | some s =>
      if s.isSuccessful then
        match h.results with
        | some r => (h, h.completionCallbacks.map (fun cb => CbEvent.completionCb cb (some r)))
        | none =>
          match getJobResults st h.jobId with
          | .ok r =>
            ({ h with results := some r },
             h.completionCallbacks.map (fun cb => CbEvent.completionCb cb (some r)))
          | .error _ =>
            (h, h.completionCallbacks.map (fun cb => CbEvent.completionCb cb none))
      else (h, h.completionCallbacks.map (fun cb => CbEvent.completionCb cb none))
    | none => (h, h.completionCallbacks.map (fun cb => CbEvent.completionCb cb none))

/-- Job.get_status (job.py lines 165-184): refresh the snapshot from the
backend (wrapping a backend failure into QETLError), cache it, invoke
every status callback with it, and, when it is terminal and completion
callbacks are registered, trigger all completion callbacks. Returns the
snapshot, the updated handle, and the invocations performed. -/
def getStatus (st : Store) (h : Job) : Except QErr (JobStatus × Job × List CbEvent) :=
  match getJobStatus st h.jobId with
  | .error e => .error (.qetlError ("Failed to get job status: " ++ e.str))
  | .ok s =>
    let h1 := { h with cachedStatus := some s }
    let ev1 := h1.statusCallbacks.map (fun cb => CbEvent.statusCb cb s)
    if s.isTerminal && !h1.completionCallbacks.isEmpty then
      let (h2, ev2) := triggerCompletion st h1
      .ok (s, h2, ev1 ++ ev2)
    else .ok (s, h1, ev1)

/-- The property Job.status (job.py lines 158-163): return the cached
snapshot when one is present — without any backend read — and call
get_status only when nothing is cached yet. -/
def statusProp (st : Store) (h : Job) : Except QErr (JobStatus × Job × List CbEvent) :=
  match h.cachedStatus with
  | some s => .ok (s, h, [])
  | none => getStatus st h

/-- Job.on_completion (job.py lines 275-286): append the callback, then, when
self.status is terminal, trigger all completion callbacks immediately and
synchronously. -/
def onCompletion (st : Store) (h : Job) (cb : Nat) : Except QErr (Job × List CbEvent) :=
  let h1 := { h with completionCallbacks := h.completionCallbacks ++ [cb] }
  match statusProp st h1 with
  | .error e => .error e
  | .ok (s, h2, ev) =>
    if s.isTerminal then
      let (h3, ev2) := triggerCompletion st h2
      .ok (h3, ev ++ ev2)
    else .ok (h2, ev)

/-- Outcome of one call to Job.get_results: the wait loop never exits
(diverges), an exception is raised, or results are returned with the
updated handle. -/
inductive GetResultsOutcome where
  | diverges
  | err (e : QErr)
  | ok (r : JobResults) (h : Job)
deriving DecidableEq, Repr

/-- Job.get_results (job.py lines 186-210). The wait loop re-evaluates only
the property self.status; after its first evaluation the snapshot is
cached and the loop body changes nothing, so the loop exits right away
when that first snapshot is terminal and otherwise never exits (the
diverges outcome below; the theorem on waitExitsWithin establishes the
non-exit). Past the loop: a non-successful terminal state raises
QETLError built from the snapshot message; otherwise results are fetched
from the backend once and cached, fetch failures being wrapped into
QETLError. -/
def getResultsRun (st : Store) (h : Job) : GetResultsOutcome × List CbEvent :=
  match statusProp st h with
  | .error e => (.err e, [])
  | .ok (s, h1, ev) =>
    if !s.isTerminal then (.diverges, ev)
    else if !s.isSuccessful then
      (.err (.qetlError ("Job " ++ h1.jobId ++ " failed: " ++ s.message)), ev)
    else
      match h1.results with
      | some r => (.ok r h1, ev)
      | none =>
        match getJobResults st h1.jobId with
        | .ok r => (.ok r { h1 with results := some r }, ev)
        | .error e => (.err (.qetlError ("Failed to get job results: " ++ e.str)), ev)

/-- Whether the wait loop of Job.get_results has exited within n iterations
of evaluating its condition: each iteration evaluates the property
self.status (statusProp) and exits when the snapshot is terminal,
otherwise sleeps and re-checks with the handle the property returned. -/
def waitExitsWithin (st : Store) : Job → Nat → Except QErr Bool
  | _, 0 => .ok false
  | h, n + 1 =>
    match statusProp st h with
    | .error e => .error e
    | .ok (s, h1, _) =>
      if s.isTerminal then .ok true else waitExitsWithin st h1 n

/-- The effect of one execution write on the record it targets. -/
def applyRecOp (r : JobRecord) : StoreOp → JobRecord
  | .setStatus s p m => { r with state := s, progress := p, message := m }
  | .setResults res => { r with results := some res }
  | .setError e => { r with error := some e }

/-- Number of times one callback is invoked as a completion callback in a
list of recorded invocations. -/
def countCompletionInvocations (cb : Nat) (evs : List CbEvent) : Nat :=
  evs.countP (fun e => match e with
    | .completionCb c _ => c == cb
    | _ => false)

/-- Results stored for the completed job of the C5 scenario. -/
def c5Results : JobResults :=
  { jobId := "j", outputs := [("status", "completed")], executionTime := 1,
    logs := [], metrics := [] }

/-- Backend store of the C5 scenario: one job, already COMPLETED, results
stored. -/
def c5Store : Store :=
  [("j", { state := .completed, progress := some 100,
           message := "Job completed successfully", results := some c5Results })]

/-- Handle of the C5 scenario, holding a cached COMPLETED snapshot. -/
def c5Handle : Job :=
  { jobId := "j",
    cachedStatus := some { jobId := "j", state := .completed, progress := some 100,
                           message := "Job completed successfully" } }

/-- The invocations performed by registering completion callback 1 and then
completion callback 2 on the already-completed job of the C5 scenario. -/
def c5TwoRegistrations : List CbEvent :=
  match onCompletion c5Store c5Handle 1 with
  | .ok (h1, ev1) =>
    (match onCompletion c5Store h1 2 with
     | .ok (_, ev2) => ev1 ++ ev2
     | .error _ => ev1)
  | .error _ => []

/-- Store of the C8 counterexample: a submitted job whose execution reaches
RUNNING (progress 40) and then fails in the executor. -/
def c8FailedStore : Store :=
  applyOps [("j", { state := .submitted, progress := some 0, message := "Job submitted" })] "j"
    (executeJobOps "j" 0 (.ok ())
      (.error { etype := "JobExecutionError",
                emessage := "[JOB_EXECUTION_ERROR] Pipeline execution failed: exit 1" }))

/-- The filtered snapshots of the whole store in insertion order: what
list_jobs returns once the cap is removed. -/
def filteredSnapshots (st : Store) (f : Option String) : List JobStatus :=
  (st.filter (fun p => matchesFilter f p.2)).map (fun p => mkJobStatus p.1 p.2)

/-! ### Helper lemmas on the store -/

theorem findJob_updateJob (st : Store) (jid : String) (f : JobRecord → JobRecord) :
    findJob (updateJob st jid f) jid = (findJob st jid).map f := by
  induction st with
  | nil => rfl
  | cons p rest ih =>
    obtain ⟨k, r⟩ := p
    by_cases hk : k = jid
    · simp [findJob, updateJob, hk]
    · simp [findJob, updateJob, hk, ih]

theorem findJob_updateJobStatus (st : Store) (jid : String) (s : JobState)
    (p : Option Rat) (m : String) (rec0 : JobRecord) (h : findJob st jid = some rec0) :
    findJob (updateJobStatus st jid s p m) jid
      = some { rec0 with state := s, progress := p, message := m } := by
  unfold updateJobStatus
  rw [h]
  simp [findJob_updateJob, h]

theorem findJob_append_fresh (st : Store) (jid : String) (r : JobRecord)
    (h : findJob st jid = none) : findJob (st ++ [(jid, r)]) jid = some r := by
  induction st with
  | nil => simp [findJob]
  | cons p rest ih =>
    obtain ⟨k, r'⟩ := p
    by_cases hk : k = jid
    · simp [findJob, hk] at h
    · simp [findJob, hk] at h ⊢
      exact ih h

theorem findJob_applyOps (ops : List StoreOp) :
    ∀ (st : Store) (jid : String) (rec0 : JobRecord), findJob st jid = some rec0 →
      findJob (applyOps st jid ops) jid = some (ops.foldl applyRecOp rec0) := by
  induction ops with
  | nil => intro st jid rec0 h; simpa [applyOps] using h
  | cons op rest ih =>
    intro st jid rec0 h
    have hstep : findJob (applyOp st jid op) jid = some (applyRecOp rec0 op) := by
      cases op with
      | setStatus s p m => exact findJob_updateJobStatus st jid s p m rec0 h
      | setResults res => simp [applyOp, findJob_updateJob, h, applyRecOp]
      | setError e => simp [applyOp, findJob_updateJob, h, applyRecOp]
    have : applyOps st jid (op :: rest) = applyOps (applyOp st jid op) jid rest := by
      simp [applyOps]
    rw [this]
    exact ih (applyOp st jid op) jid (applyRecOp rec0 op) hstep

/-! ### Claims -/

/-- C3: a successfully executed job records exactly the transition sequence
SUBMITTED (0), VALIDATING (10), QUEUED (20), INITIALIZING (30),
RUNNING (40), COMPLETING (90), COMPLETED (100), in store-write order: the
submission writes the SUBMITTED record with progress 0, the execution
thread then performs exactly the six further status writes in that order,
and the final record is COMPLETED with progress 100 and the results
populated (the results write precedes the COMPLETED write, so a record
seen in state COMPLETED carries them). -/
theorem successful_execution_trace
    (st : Store) (cfg : Config) (jid : String) (t : Rat) (pr : PipeResult)
    (hv : validateYaml cfg = .ok ()) (hfresh : findJob st jid = none) :
    (submitJob st cfg jid).2.1 = some jid
    ∧ findJob (submitJob st cfg jid).1 jid
        = some { state := .submitted, progress := some 0, message := "Job submitted" }
    ∧ ((JobState.submitted, some (0 : Rat)) ::
        (executeJobOps jid t (.ok ()) (.ok pr)).filterMap opStatusWrite
      = [(.submitted, some 0), (.validating, some 10), (.queued, some 20),
         (.initializing, some 30), (.running, some 40), (.completing, some 90),
         (.completed, some 100)])
    ∧ findJob (applyOps (submitJob st cfg jid).1 jid (executeJobOps jid t (.ok ()) (.ok pr))) jid
        = some { state := .completed, progress := some 100,
                 message := "Job completed successfully",
                 results := some (mkJobResults jid pr t), error := none } := by
  have hsub : submitJob st cfg jid
      = (st ++ [(jid, { state := .submitted, progress := some 0, message := "Job submitted" })],
         some jid,
         .ok { jobId := jid, state := .submitted, progress := some 0, message := "Job submitted" }) := by
    simp [submitJob, hv]
  have hrec : findJob (submitJob st cfg jid).1 jid
      = some { state := .submitted, progress := some 0, message := "Job submitted" } := by
    rw [hsub]
    exact findJob_append_fresh st jid _ hfresh
  refine ⟨by rw [hsub], hrec, by simp [executeJobOps, opStatusWrite], ?_⟩
  rw [findJob_applyOps _ _ _ _ hrec]
  rfl

/-- Witness for C3 at a concrete input: a valid three-section spec submitted
into an empty store and executed successfully. -/
theorem successful_execution_trace_witness :
    findJob
      (applyOps
        (submitJob [] ["pipeline_name", "input_sources", "transformations"] "J1").1 "J1"
        (executeJobOps "J1" 2 (.ok ())
          (.ok { outputs := [("status", "completed")], logs := ["Processing complete"], metrics := [] })))
      "J1"
      = some { state := .completed, progress := some 100,
               message := "Job completed successfully",
               results := some (mkJobResults "J1"
                 { outputs := [("status", "completed")], logs := ["Processing complete"], metrics := [] } 2),
               error := none } := by
  exact (successful_execution_trace [] ["pipeline_name", "input_sources", "transformations"]
    "J1" 2 { outputs := [("status", "completed")], logs := ["Processing complete"], metrics := [] }
    rfl (by decide)).2.2.2

/-- C4: when the cached snapshot of a Job handle is non-terminal, the wait
loop of Job.get_results never exits: the property self.status returns
the cached snapshot without refreshing, the loop body changes nothing, so
after any number of iterations the exit condition is still false — for
every backend store, including one whose record has long reached a
terminal state — and the call diverges. -/
theorem get_results_wait_never_exits
    (st : Store) (h : Job) (s : JobStatus)
    (hc : h.cachedStatus = some s) (hnt : s.isTerminal = false) :
    (∀ n : Nat, waitExitsWithin st h n = .ok false)
    ∧ (getResultsRun st h).1 = .diverges := by
  have hsp : statusProp st h = .ok (s, h, []) := by
    simp [statusProp, hc]
  constructor
  · intro n
    induction n with
    | zero => rfl
    | succ m ih =>
      rw [waitExitsWithin, hsp]
      simp only [hnt]
      simpa using ih
  · rw [getResultsRun, hsp]
    simp [hnt]

/-- Witness for C4 at a concrete input: the backend record is COMPLETED, but
the handle cached a RUNNING snapshot, and five loop iterations later the
wait has still not exited. -/
theorem get_results_wait_never_exits_witness :
    waitExitsWithin
      [("j", { state := .completed, progress := some 100, message := "Job completed successfully" })]
      { jobId := "j",
        cachedStatus := some { jobId := "j", state := .running, progress := some 40, message := "Executing pipeline" } }
      5 = .ok false := by
  exact (get_results_wait_never_exits
    [("j", { state := .completed, progress := some 100, message := "Job completed successfully" })]
    { jobId := "j",
      cachedStatus := some { jobId := "j", state := .running, progress := some 40, message := "Executing pipeline" } }
    { jobId := "j", state := .running, progress := some 40, message := "Executing pipeline" }
    rfl (by decide)).1 5

/-- C6: submitting any spec that fails validation — every configuration
missing at least one of the required sections, the missing
transformations section among them — raises ValidationError
synchronously: the store is returned unchanged (no job record, hence no
state transition was recorded), no background execution thread is
spawned, and the raised error is the ValidationError carrying the
missing-field messages. The hypothesis is exactly the failure condition
of validate_yaml: its error list is non-empty. -/
theorem submit_invalid_spec_rejected_before_record
    (st : Store) (cfg : Config) (jid : String)
    (h : missingFieldErrors cfg ≠ []) :
    (submitJob st cfg jid).1 = st
    ∧ (submitJob st cfg jid).2.1 = none
    ∧ (submitJob st cfg jid).2.2
        = .error (.validationError "YAML validation failed" (missingFieldErrors cfg)) := by
  have hval : validateYaml cfg
      = .error (.validationError "YAML validation failed" (missingFieldErrors cfg)) := by
    simp [validateYaml, h]
  refine ⟨?_, ?_, ?_⟩ <;> simp [submitJob, hval]

/-- Witness for C6 at a concrete input: a spec with only pipeline_name and
input_sources is rejected without touching the store. -/
theorem submit_invalid_spec_rejected_before_record_witness :
    (submitJob [] ["pipeline_name", "input_sources"] "J1").1 = []
    ∧ (submitJob [] ["pipeline_name", "input_sources"] "J1").2.2
        = .error (.validationError "YAML validation failed"
            ["Missing required field: transformations"]) := by
  have h := submit_invalid_spec_rejected_before_record [] ["pipeline_name", "input_sources"] "J1"
    (by decide)
  refine ⟨h.1, ?_⟩
  rw [h.2.2]
  rfl

/-- C5 counterexample: the claim says a completion callback is invoked
exactly once and never again by later registrations. In the code,
on_completion re-triggers ALL registered callbacks whenever the job is
already terminal, so after registering callback 1 and then callback 2 on
an already-COMPLETED job, callback 1 has been invoked twice. -/
theorem completion_callback_invoked_twice :
    countCompletionInvocations 1 c5TwoRegistrations = 2
    ∧ countCompletionInvocations 1 c5TwoRegistrations ≠ 1 := by
  decide

/-- C5 amended: a completion callback registered after the job is already
terminal is invoked immediately and synchronously during that
registration — but the registration re-invokes every previously
registered completion callback as well: the invocation list of
on_completion on a handle with a cached terminal snapshot is exactly the
whole callback list (old ones then the new one, in order), each applied
to one shared payload. Exactly-once across later registrations or status
reads is not guaranteed. -/
theorem on_completion_after_terminal_invokes_all
    (st : Store) (h : Job) (s : JobStatus) (cb : Nat)
    (hc : h.cachedStatus = some s) (ht : s.isTerminal = true) :
    ∃ (h2 : Job) (payload : Option JobResults),
      onCompletion st h cb
        = .ok (h2, (h.completionCallbacks ++ [cb]).map
            (fun c => CbEvent.completionCb c payload)) := by
  have hne : (h.completionCallbacks ++ [cb]).isEmpty = false := by
    cases h.completionCallbacks <;> rfl
  cases hsucc : s.isSuccessful with
  | false =>
    refine ⟨{ h with completionCallbacks := h.completionCallbacks ++ [cb] }, none, ?_⟩
    simp [onCompletion, statusProp, hc, ht, triggerCompletion, hne, hsucc]
  | true =>
    cases hres : h.results with
    | some r =>
      refine ⟨{ h with completionCallbacks := h.completionCallbacks ++ [cb] }, some r, ?_⟩
      simp [onCompletion, statusProp, hc, ht, triggerCompletion, hne, hsucc, hres]
    | none =>
      cases hget : getJobResults st h.jobId with
      | ok r =>
        refine ⟨{ h with completionCallbacks := h.completionCallbacks ++ [cb],
                         results := some r }, some r, ?_⟩
        simp [onCompletion, statusProp, hc, ht, triggerCompletion, hne, hsucc, hres, hget]
      | error e =>
        refine ⟨{ h with completionCallbacks := h.completionCallbacks ++ [cb] }, none, ?_⟩
        simp [onCompletion, statusProp, hc, ht, triggerCompletion, hne, hsucc, hres, hget]

/-- Witness for the C5 amended theorem at a concrete input: registering
callback 7 on a handle with a cached FAILED snapshot invokes exactly
(callback 7 with payload None). -/
theorem on_completion_after_terminal_invokes_all_witness :
    ∃ (h2 : Job) (payload : Option JobResults),
      onCompletion [("j", { state := .failed, progress := none, message := "boom" })]
          { jobId := "j",
            cachedStatus := some { jobId := "j", state := .failed, progress := none, message := "boom" } }
          7
        = .ok (h2, [CbEvent.completionCb 7 payload]) := by
  exact on_completion_after_terminal_invokes_all
    [("j", { state := .failed, progress := none, message := "boom" })]
    { jobId := "j",
      cachedStatus := some { jobId := "j", state := .failed, progress := none, message := "boom" } }
    { jobId := "j", state := .failed, progress := none, message := "boom" }
    7 rfl (by decide)

/-- C8 counterexample: the claim says a failure after execution started
leaves progress at its last known value. Here execution started (the
RUNNING write put progress at 40) and the executor then failed, yet the
final record has progress unset (None), not 40: the except-branch always
passes progress=None. -/
theorem failed_job_progress_cleared_counterexample :
    (findJob c8FailedStore "j").map JobRecord.state = some .failed
    ∧ (findJob c8FailedStore "j").map JobRecord.progress = some none
    ∧ ¬ (findJob c8FailedStore "j").map JobRecord.progress = some (some 40) := by
  decide

/-- C8 amended: on every failure — whether the executor failed after
execution started or loading the spec failed before it — the transition
to FAILED sets progress to unset (None) unconditionally, and populates
the record error with the failure kind (the exception class name) and the
original message. -/
theorem failure_sets_progress_unset_and_error
    (st : Store) (jid : String) (t : Rat) (rec0 : JobRecord) (e : ExcInfo)
    (h : findJob st jid = some rec0) :
    findJob (applyOps st jid (executeJobOps jid t (.ok ()) (.error e))) jid
      = some { state := .failed, progress := none, message := e.emessage,
               results := rec0.results,
               error := some { etype := e.etype, emessage := e.emessage } }
    ∧ ∀ run, findJob (applyOps st jid (executeJobOps jid t (.error e) run)) jid
      = some { state := .failed, progress := none, message := e.emessage,
               results := rec0.results,
               error := some { etype := e.etype, emessage := e.emessage } } := by
  constructor
  · rw [findJob_applyOps _ _ _ _ h]
    rfl
  · intro run
    rw [findJob_applyOps _ _ _ _ h]
    rfl

/-- Witness for C8 amended at a concrete input: a running job whose executor
times out ends FAILED with progress None and the Timeout kind stored. -/
theorem failure_sets_progress_unset_and_error_witness :
    findJob
      (applyOps [("j", { state := .submitted, progress := some 0, message := "Job submitted" })] "j"
        (executeJobOps "j" 0 (.ok ())
          (.error { etype := "JobExecutionError",
                    emessage := "[JOB_EXECUTION_ERROR] Pipeline execution timed out after 2 seconds" })))
      "j"
      = some { state := .failed, progress := none,
               message := "[JOB_EXECUTION_ERROR] Pipeline execution timed out after 2 seconds",
               results := none,
               error := some { etype := "JobExecutionError",
                               emessage := "[JOB_EXECUTION_ERROR] Pipeline execution timed out after 2 seconds" } } := by
  exact (failure_sets_progress_unset_and_error
    [("j", { state := .submitted, progress := some 0, message := "Job submitted" })] "j" 0
    { state := .submitted, progress := some 0, message := "Job submitted" }
    { etype := "JobExecutionError",
      emessage := "[JOB_EXECUTION_ERROR] Pipeline execution timed out after 2 seconds" }
    (by decide)).1

/-- C9 counterexample: the claim says every store lookup on an unknown id —
cancel included — fails with a NotFound-kind error and nothing silently
returns a default. cancel_job on an unknown id instead silently returns
false without raising anything, both on an empty store and on a store
holding other jobs. -/
theorem cancel_unknown_id_silent_false :
    cancelJob [] "missing" = ([], false)
    ∧ cancelJob [("k", { state := .running, progress := some 40, message := "Executing pipeline" })] "missing"
        = ([("k", { state := .running, progress := some 40, message := "Executing pipeline" })], false) := by
  decide

/-- C9 amended: on an unknown job id, the status, results and logs lookups
raise an error whose message is Job not found followed by the id — but it
is the generic base QETLError, not the dedicated JobNotFoundError class
of exceptions.py — while cancel does not fail at all: it silently returns
false and leaves the store unchanged. -/
theorem unknown_id_lookups (st : Store) (jid : String) (h : findJob st jid = none) :
    getJobStatus st jid = .error (.qetlError ("Job not found: " ++ jid))
    ∧ getJobResults st jid = .error (.qetlError ("Job not found: " ++ jid))
    ∧ getJobLogs st jid = .error (.qetlError ("Job not found: " ++ jid))
    ∧ (QErr.qetlError ("Job not found: " ++ jid)).isJobNotFoundError = false
    ∧ cancelJob st jid = (st, false) := by
  refine ⟨?_, ?_, ?_, rfl, ?_⟩ <;> simp [getJobStatus, getJobResults, getJobLogs, cancelJob, h]

/-- Witness for C9 amended at a concrete input: lookups on an id absent from
a one-job store. -/
theorem unknown_id_lookups_witness :
    getJobStatus [("k", { state := .running, progress := some 40, message := "Executing pipeline" })] "nope"
      = .error (.qetlError "Job not found: nope")
    ∧ cancelJob [("k", { state := .running, progress := some 40, message := "Executing pipeline" })] "nope"
      = ([("k", { state := .running, progress := some 40, message := "Executing pipeline" })], false) := by
  have h := unknown_id_lookups
    [("k", { state := .running, progress := some 40, message := "Executing pipeline" })] "nope"
    (by decide)
  exact ⟨h.1, h.2.2.2.2⟩

theorem listJobsLoop_eq (f : Option String) (k : Nat) (l : List (String × JobRecord)) :
    ∀ acc : List JobStatus, acc.length < k →
      listJobsLoop f (k : Int) l acc
        = acc.reverse ++ (filteredSnapshots l f).take (k - acc.length) := by
  induction l with
  | nil =>
    intro acc hacc
    simp [listJobsLoop, filteredSnapshots]
  | cons p rest ih =>
    intro acc hacc
    obtain ⟨jid, r⟩ := p
    by_cases hm : matchesFilter f r = true
    · have hfs : filteredSnapshots ((jid, r) :: rest) f
          = mkJobStatus jid r :: filteredSnapshots rest f := by
        simp [filteredSnapshots, hm]
      by_cases hk : acc.length + 1 ≥ k
      · have hkeq : k = acc.length + 1 := by omega
        have hcond : ((mkJobStatus jid r :: acc).length : Int) ≥ (k : Int) := by
          simp only [List.length_cons]
          omega
        rw [listJobsLoop]
        simp only [hm, if_true]
        rw [if_pos hcond, hfs, hkeq]
        have h1 : acc.length + 1 - acc.length = 1 := by omega
        rw [h1]
        simp
      · have hcond : ¬ ((mkJobStatus jid r :: acc).length : Int) ≥ (k : Int) := by
          simp only [List.length_cons]
          omega
        rw [listJobsLoop]
        simp only [hm, if_true]
        rw [if_neg hcond]
        have hlt : (mkJobStatus jid r :: acc).length < k := by
          simp only [List.length_cons]
          omega
        rw [ih (mkJobStatus jid r :: acc) hlt, hfs]
        have h2 : k - acc.length = (k - (acc.length + 1)) + 1 := by omega
        rw [h2, List.take_succ_cons]
        simp [List.reverse_cons]
    · have hfs : filteredSnapshots ((jid, r) :: rest) f = filteredSnapshots rest f := by
        simp [filteredSnapshots, hm]
      rw [listJobsLoop]
      rw [if_neg hm]
      rw [ih acc hacc, hfs]

/-- C10 amended: for every store, every state filter and every limit of at
least one, list_jobs returns the snapshots of the stored jobs in
insertion order, with the filter applied before the cap, capped at the
limit: it equals the filtered insertion-order sequence truncated to the
limit. (For limit zero or below — never used by the SDK, whose default is
100 — the break sits after the first append, so one matching job is still
returned, which is what forces the at-least-one bound here.) -/
theorem list_jobs_insertion_order_capped (st : Store) (f : Option String) (limit : Int)
    (hl : 1 ≤ limit) :
    listJobs st f limit = (filteredSnapshots st f).take limit.toNat := by
  have hpos : 0 < limit.toNat := by omega
  have h := listJobsLoop_eq f limit.toNat st [] (by simpa using hpos)
  have hcast : ((limit.toNat : Nat) : Int) = limit := by omega
  rw [hcast] at h
  simpa [listJobs] using h

/-- Witness for C10 amended at the concrete scenario of the claim: a store
holding five jobs J1..J5 in submission order, listed with limit 2,
returns exactly the snapshots of J1 and J2. -/
theorem list_jobs_insertion_order_capped_witness :
    listJobs
      [("J1", { state := .submitted, progress := some 0, message := "Job submitted" }),
       ("J2", { state := .submitted, progress := some 0, message := "Job submitted" }),
       ("J3", { state := .submitted, progress := some 0, message := "Job submitted" }),
       ("J4", { state := .submitted, progress := some 0, message := "Job submitted" }),
       ("J5", { state := .submitted, progress := some 0, message := "Job submitted" })]
      none 2
    = [mkJobStatus "J1" { state := .submitted, progress := some 0, message := "Job submitted" },
       mkJobStatus "J2" { state := .submitted, progress := some 0, message := "Job submitted" }] := by
  rw [list_jobs_insertion_order_capped _ _ 2 (by decide)]
  rfl

/-- C10 counterexample: the claim quantifies over every limit, but with
limit 0 on a store holding one job the returned list has length 1: the
break check sits after the append, so the result is not capped at the
limit. -/
theorem list_jobs_limit_zero_exceeds_cap :
    (listJobs [("J1", { state := .submitted, progress := some 0, message := "Job submitted" })] none 0).length = 1
    ∧ ¬ (((listJobs [("J1", { state := .submitted, progress := some 0, message := "Job submitted" })] none 0).length : Int) ≤ 0) := by
  decide
